import Mathlib

/-!
Shallow embedding of the IKEA gallery checker scan engine
(`src/app/api/scan/route.ts`, second revision: `detectBrokenGalleriesWithSteps`
and the streaming `POST` handler;, `src/lib/utils.ts`:
`detectCloudflareBlocking`; `src/app/page.tsx` / `src/unnamed/part_001`:
the client aggregation in `startScan`).

Strings are modelled as `List Char` where character-level regex matching is
involved.  The JavaScript regexes used by the classifier are translated into
explicit backtracking matchers that follow the engine's search order
(greedy character classes try the longest repetition first; the lazy group
stops at the first occurrence of the delimiter; the scanner takes the
leftmost match and resumes after it, as a global `exec` loop does).
-/

/-! ## Basic string machinery -/

/-- Length of the maximal prefix of characters different from `bad`
(the extent a greedy character class of the form not-`bad` can consume). -/
def maxRun (bad : Char) : List Char → Nat
  | [] => 0
  | c :: s => if c = bad then 0 else maxRun bad s + 1

/-- Strip a literal from the front of a string: `some rest` when the literal
is a prefix, `none` otherwise. -/
def stripLit : List Char → List Char → Option (List Char)
  | [], s => some s
  | _ :: _, [] => none
  | p :: ps, c :: cs => if p = c then stripLit ps cs else none

/-- Strip a literal from the front of a string, comparing characters after
ASCII lowercasing (the semantics of a case-insensitive literal). -/
def asciiLower (c : Char) : Char :=
  if 'A' ≤ c ∧ c ≤ 'Z' then Char.ofNat (c.toNat + 32) else c

def stripLitCI : List Char → List Char → Option (List Char)
  | [], s => some s
  | _ :: _, [] => none
  | p :: ps, c :: cs => if asciiLower p = asciiLower c then stripLitCI ps cs else none

/-- Backtracking over a greedy character class: try dropping `k` characters,
then `k - 1`, …, down to `0`, returning the first success of the
continuation.  Called with `k = maxRun bad s`, this is exactly the order a
backtracking engine explores a greedy not-`bad` class. -/
def tryFrom {α : Type} (cont : List Char → Option α) : Nat → List Char → Option α
  | 0, s => cont s
  | k + 1, s =>
    match cont (s.drop (k + 1)) with
    | some r => some r
    | none => tryFrom cont k s

/-- Lazy scan: split `s` as `g ++ delim ++ rest` with the shortest possible
`g` (the semantics of a lazy any-character group followed by a literal).
`none` when `delim` does not occur in `s`. -/
def lazyUntil (delim : List Char) : List Char → Option (List Char × List Char)
  | [] =>
    match stripLit delim [] with
    | some rest => some ([], rest)
    | none => none
  | c :: s =>
    match stripLit delim (c :: s) with
    | some rest => some ([], rest)
    | none =>
      match lazyUntil delim s with
      | some p => some (c :: p.1, p.2)
      | none => none

/-- Substring test (the semantics of JavaScript `String.prototype.includes`). -/
def containsSub (needle : List Char) : List Char → Bool
  | [] => (stripLit needle []).isSome
  | c :: s => (stripLit needle (c :: s)).isSome || containsSub needle s

/-- Is there a position at distance at most `maxRun bad` from the front of `s`
where `lit` starts?  This decides whether a pattern fragment of the form
not-`bad`-star followed by the literal `lit` can match a prefix of `s`. -/
def existsWithinRun (bad : Char) (lit : List Char) : List Char → Bool
  | [] => (stripLit lit []).isSome
  | c :: s => (stripLit lit (c :: s)).isSome || (decide (c ≠ bad) && existsWithinRun bad lit s)

/-! ## The classifier's regular expressions (route.ts, second revision)

Container pattern (line 357):
  a div tag whose class attribute holds the token `c1s88gxp` and then the
  token `a1wqrctr`, capturing the inner content up to the first closing
  `</div>`.
Inner-content tests (lines 384, 388, 403):
  a case-insensitive `<video …>` tag, the working indicator
  `pub__shoppable-image` followed within the class value by `--visible-dots`,
  and the plain `pub__shoppable-image` substring. -/

/-- Test of the regex matching a video tag, case-insensitively:
the literal `<video`, then characters other than a closing angle bracket,
then a closing angle bracket, anywhere in the string. -/
def hasVideoTagL : List Char → Bool
  | [] => false
  | c :: s =>
    (match stripLitCI ("<video".data) (c :: s) with
     | some t => existsWithinRun '>' (">".data) t
     | none => false)
    || hasVideoTagL s

/-- Test of the working-indicator regex: the literal `pub__shoppable-image`,
then characters other than a double quote, then the literal
`--visible-dots`, anywhere in the string. -/
def hasWorkingGalleryL : List Char → Bool
  | [] => false
  | c :: s =>
    (match stripLit ("pub__shoppable-image".data) (c :: s) with
     | some t => existsWithinRun '"' ("--visible-dots".data) t
     | none => false)
    || hasWorkingGalleryL s

/-- Plain substring test for the `pub__shoppable-image` token. -/
def hasShoppableImageL (s : List Char) : Bool :=
  containsSub ("pub__shoppable-image".data) s

/-- Try to match the container pattern at the very start of `s`.
Translation of the regex at route.ts line 357: the literal `<div`, a greedy
run of non-`>` characters, the literal `class="`, a greedy run of non-`"`
characters, the literal `c1s88gxp`, a greedy run of non-`"` characters, the
literal `a1wqrctr`, a greedy run of non-`"` characters, the literal `"`, a
greedy run of non-`>` characters, the literal `>`, and then the lazily
captured inner content ending at the first `</div>`.  The nested `tryFrom`
continuations reproduce the engine's backtracking through every greedy
class.  Returns `some (inner, rest)`: the captured group and the remainder
of the string after the whole match. -/
def matchContainerAt (s : List Char) : Option (List Char × List Char) :=
  match stripLit ("<div".data) s with
  | none => none
  | some s1 =>
    tryFrom (fun t1 =>
      match stripLit ("class=\"".data) t1 with
      | none => none
      | some t2 =>
        tryFrom (fun t3 =>
          match stripLit ("c1s88gxp".data) t3 with
          | none => none
          | some t4 =>
            tryFrom (fun t5 =>
              match stripLit ("a1wqrctr".data) t5 with
              | none => none
              | some t6 =>
                tryFrom (fun t7 =>
                  match stripLit ("\"".data) t7 with
                  | none => none
                  | some t8 =>
                    tryFrom (fun t9 =>
                      match stripLit (">".data) t9 with
                      | none => none
                      | some t10 => lazyUntil ("</div>".data) t10)
                      (maxRun '>' t8) t8)
                  (maxRun '"' t6) t6)
              (maxRun '"' t4) t4)
          (maxRun '"' t2) t2)
      (maxRun '>' s1) s1

/-- One global scan of the container regex: leftmost match first, the scan
resuming right after each match, as both `String.prototype.matchAll` and the
`exec` loop over a fresh global regex do (route.ts lines 358 and 380 iterate
the same match sequence).  Each element is `(full match, captured inner
content)`.  The fuel is the string length; every match consumes at least one
character, so the fuel never runs out. -/
def scanContainersAux : Nat → List Char → List (List Char × List Char)
  | 0, _ => []
  | fuel + 1, s =>
    match s with
    | [] => []
    | _ :: s1 =>
      match matchContainerAt s with
      | some (inner, rest) =>
        (s.take (s.length - rest.length), inner) :: scanContainersAux fuel rest
      | none => scanContainersAux fuel s1

def findContainers (s : List Char) : List (List Char × List Char) :=
  scanContainersAux s.length s

/-! ## Data model (src/types/index.ts) -/

inductive GalleryStatus where
  | broken
  | working
  | noCuratedGallery
deriving DecidableEq, Repr, BEq

structure GalleryItem where
  page_url : String
  image_url : String
  alt_text : String
  reason : String
  status : GalleryStatus
  scraped_html : String
  puppeteer_used : Bool
  debug_info : String
  cloudflare_blocked : Bool
deriving DecidableEq, Repr

/-- `substring(0, n)` over the character list, repackaged as a string. -/
def takeChars (n : Nat) (l : List Char) : String :=
  String.mk (l.take n)

/-! ## Classifier (route.ts lines 354–434) -/

/-- Classification of one matched container `(full markup, inner content)`:
`none` when the inner content embeds a video tag (the container is skipped),
otherwise the emitted item, following the branch structure at route.ts lines
384–430.  `debug_info` is the constant empty string of this revision
(line 234). -/
def classifyContainer (url html : String) (pup : Bool)
    (c : List Char × List Char) : Option GalleryItem :=
  if hasVideoTagL c.2 then none
  else if hasWorkingGalleryL c.2 then
    some { page_url := url
           image_url := takeChars 500 c.1
           alt_text := "Curated gallery with visible dots"
           reason := "Shoppable gallery is working properly"
           status := .working
           scraped_html := html
           puppeteer_used := pup
           debug_info := ""
           cloudflare_blocked := false }
  else if !hasShoppableImageL c.2 then
    some { page_url := url
           image_url := takeChars 500 c.1
           alt_text := "Broken curated gallery"
           reason := "Container has image but missing pub__shoppable-image component"
           status := .broken
           scraped_html := html
           puppeteer_used := pup
           debug_info := ""
           cloudflare_blocked := false }
  else
    some { page_url := url
           image_url := takeChars 500 c.1
           alt_text := "Gallery without visible dots"
           reason := "Shoppable gallery missing --visible-dots class"
           status := .broken
           scraped_html := html
           puppeteer_used := pup
           debug_info := ""
           cloudflare_blocked := false }

/-- The synthetic item of the zero-container branch (route.ts lines 360–375). -/
def noCuratedGalleryItem (url : String) (pup : Bool) : GalleryItem :=
  { page_url := url
    image_url := ""
    alt_text := ""
    reason := "No curated gallery components found on this page"
    status := .noCuratedGallery
    scraped_html := ""
    puppeteer_used := pup
    debug_info := ""
    cloudflare_blocked := false }

/-- The classification stage of `detectBrokenGalleriesWithSteps` (route.ts
lines 354–434): when no container matches, the single synthetic
no-curated-gallery item; otherwise one pass over the matches, video
containers skipped. -/
def classifyGalleries (url html : String) (pup : Bool) : List GalleryItem :=
  let containers := findContainers html.data
  if containers.isEmpty then [noCuratedGalleryItem url pup]
  else containers.filterMap (classifyContainer url html pup)

/-! ## Executor (route.ts lines 230–452)

The fetch stage is effectful; its possible outcomes are modelled as a sum.
`rendered html cf` is the primary path delivering the cleaned rendered DOM
(`puppeteer_used = true`; `cf` is the internal `cloudflareBlocked` flag the
navigation-failure heuristic at lines 264–269 may have set).  `fetched html`
is the fallback HTTP path with a usable response (`puppeteer_used = false`).
`blocked` is the fallback path with Cloudflare blocking detected (lines
312–328), `httpStatusError s` the fallback path with a non-ok status `s`
(lines 330–344), and `fatal msg` an exception reaching the outer catch
(lines 435–451). -/

inductive FetchOutcome where
  | rendered (html : String) (cloudflareFlag : Bool)
  | fetched (html : String)
  | blocked
  | httpStatusError (statusCode : Nat)
  | fatal (msg : String)
deriving DecidableEq, Repr

/-- The part of the outcome that reaches the classification stage: the HTML
string and the `puppeteerUsed` flag, when the pipeline gets that far. -/
def classifiedHtml : FetchOutcome → Option (String × Bool)
  | .rendered html _ => some (html, true)
  | .fetched html => some (html, false)
  | _ => none

/-- `detectBrokenGalleriesWithSteps` as a function of the fetch outcome:
the early returns of the fallback path, the outer catch, and the shared
classification stage. -/
def detectBrokenGalleriesWithSteps (url : String) : FetchOutcome → List GalleryItem
  | .rendered html _ => classifyGalleries url html true
  | .fetched html => classifyGalleries url html false
  | .blocked =>
    [ { page_url := url
        image_url := "N/A"
        alt_text := ""
        reason := "Cloudflare is blocking requests"
        status := .broken
        scraped_html := ""
        puppeteer_used := false
        debug_info := "Cloudflare blocking detected"
        cloudflare_blocked := true } ]
  | .httpStatusError s =>
    [ { page_url := url
        image_url := "N/A"
        alt_text := ""
        reason := "Page returned status " ++ toString s
        status := .broken
        scraped_html := ""
        puppeteer_used := false
        debug_info := "Fetch status: " ++ toString s
        cloudflare_blocked := false } ]
  | .fatal msg =>
    [ { page_url := url
        image_url := "N/A"
        alt_text := ""
        reason := "Scan failed: " ++ msg
        status := .broken
        scraped_html := ""
        puppeteer_used := false
        debug_info := "Fatal error: " ++ msg
        cloudflare_blocked := false } ]

/-! ## Per-URL status resolution (route.ts POST, lines 489–510) -/

structure StatusFlags where
  hasAnyBroken : Bool
  hasAnyWorking : Bool
  hasNoGallery : Bool
deriving DecidableEq, Repr

/-- One iteration of the flag-collecting loop at lines 494–502. -/
def updateFlags (f : StatusFlags) (item : GalleryItem) : StatusFlags :=
  if item.status = .broken then { f with hasAnyBroken := true }
  else if item.status = .working then { f with hasAnyWorking := true }
  else if item.status = .noCuratedGallery then { f with hasNoGallery := true }
  else f

/-- The final per-URL status of the streamed record (lines 489–510):
flags collected over the item list, then the decision chain, with `working`
the initial value that survives when no branch fires. -/
def resolveUrlStatus (items : List GalleryItem) : GalleryStatus :=
  let f := items.foldl updateFlags ⟨false, false, false⟩
  if f.hasAnyBroken then .broken
  else if f.hasNoGallery && !f.hasAnyWorking then .noCuratedGallery
  else if f.hasAnyWorking then .working
  else .working

/-! ## Cloudflare heuristic detector (src/lib/utils.ts lines 8–27)

Headers are modelled by the two header values the function reads; a header
that is absent is `none`.  `headers.get("cf-ray")` feeds a JavaScript
truthiness test, so a present but empty value counts as absent. -/

structure RespHeaders where
  server : Option String
  cfRay : Option String
deriving DecidableEq, Repr

def containsStr (hay needle : String) : Bool :=
  containsSub needle.data hay.data

def serverHasCloudflare (h : RespHeaders) : Bool :=
  match h.server with
  | some v => containsStr v "cloudflare"
  | none => false

def cfRayTruthy (h : RespHeaders) : Bool :=
  match h.cfRay with
  | some v => decide (v ≠ "")
  | none => false

def detectCloudflareBlocking (status : Nat) (h : RespHeaders) (html : String) : Bool :=
  if status == 403 || status == 429 || status == 503 then true
  else if serverHasCloudflare h || cfRayTruthy h then true
  else if containsStr html "You are being rate limited"
          || containsStr html "Checking your browser"
          || containsStr html "cloudflare-challenge"
          || containsStr html "Ray ID:" then true
  else false

/-- The detector as the claim words it (refinement comparison only): the
server-header check is case-insensitive and any present `cf-ray` header
counts.  Everything else as in the source. -/
def containsStrCI (hay needle : String) : Bool :=
  containsSub (needle.data.map asciiLower) (hay.data.map asciiLower)

def detectCloudflareBlockingClaim (status : Nat) (h : RespHeaders) (html : String) : Bool :=
  (status == 403 || status == 429 || status == 503)
  || ((match h.server with
       | some v => containsStrCI v "cloudflare"
       | none => false)
      || h.cfRay.isSome)
  || (containsStr html "You are being rate limited"
      || containsStr html "Checking your browser"
      || containsStr html "cloudflare-challenge"
      || containsStr html "Ray ID:")

/-! ## Client aggregation collapse (page.tsx / part_001, startScan) -/

def lookupAssoc (k : String) : List (String × GalleryItem) → Option GalleryItem
  | [] => none
  | (k1, v) :: rest => if k1 = k then some v else lookupAssoc k rest

def updateAssoc (k : String) (v : GalleryItem) :
    List (String × GalleryItem) → List (String × GalleryItem)
  | [] => []
  | (k1, v1) :: rest =>
    if k1 = k then (k1, v) :: rest else (k1, v1) :: updateAssoc k v rest

/-- One step of the collapse loop (page.tsx lines 131–142): a first item for
a URL seeds the map; a subsequent item mutates the representative only when
its own status is broken, setting the status to broken and OR-merging the
Cloudflare flag. -/
def collapseStep (m : List (String × GalleryItem)) (item : GalleryItem) :
    List (String × GalleryItem) :=
  match lookupAssoc item.page_url m with
  | none => m ++ [(item.page_url, item)]
  | some existing =>
    if item.status = .broken then
      updateAssoc item.page_url
        { existing with
          status := .broken
          cloudflare_blocked := item.cloudflare_blocked || existing.cloudflare_blocked } m
    else m

def collapseItems (items : List GalleryItem) : List (String × GalleryItem) :=
  items.foldl collapseStep []

/-- The collapse step as the claim words it (refinement comparison only):
broken dominates, the Cloudflare flag is OR-merged on every subsequent item,
and a working representative is upgraded when the new item says no curated
gallery. -/
def collapseStepClaim (m : List (String × GalleryItem)) (item : GalleryItem) :
    List (String × GalleryItem) :=
  match lookupAssoc item.page_url m with
  | none => m ++ [(item.page_url, item)]
  | some existing =>
    let newStatus :=
      if item.status = .broken then GalleryStatus.broken
      else if existing.status = .working ∧ item.status = .noCuratedGallery then
        GalleryStatus.noCuratedGallery
      else existing.status
    updateAssoc item.page_url
      { existing with
        status := newStatus
        cloudflare_blocked := item.cloudflare_blocked || existing.cloudflare_blocked } m

def collapseItemsClaim (items : List GalleryItem) : List (String × GalleryItem) :=
  items.foldl collapseStepClaim []

/-! ## Helper lemmas -/

lemma classifyContainer_eq_none_iff (url html : String) (pup : Bool)
    (c : List Char × List Char) :
    classifyContainer url html pup c = none ↔ hasVideoTagL c.2 = true := by
  unfold classifyContainer
  split_ifs with h1 h2 h3 <;> simp_all

lemma classifyContainer_status (url html : String) (pup : Bool)
    (c : List Char × List Char) (item : GalleryItem)
    (h : classifyContainer url html pup c = some item) :
    item.status = GalleryStatus.working ∨ item.status = GalleryStatus.broken := by
  unfold classifyContainer at h
  split_ifs at h <;> cases h <;> simp

lemma classifyContainer_cf (url html : String) (pup : Bool)
    (c : List Char × List Char) (item : GalleryItem)
    (h : classifyContainer url html pup c = some item) :
    item.cloudflare_blocked = false := by
  unfold classifyContainer at h
  split_ifs at h <;> cases h <;> simp

lemma classifyGalleries_eq (url html : String) (pup : Bool) :
    classifyGalleries url html pup =
      if (findContainers html.data).isEmpty then [noCuratedGalleryItem url pup]
      else (findContainers html.data).filterMap (classifyContainer url html pup) := rfl

lemma mem_classifyGalleries_cf (url html : String) (pup : Bool)
    (item : GalleryItem) (h : item ∈ classifyGalleries url html pup) :
    item.cloudflare_blocked = false := by
  rw [classifyGalleries_eq] at h
  by_cases hc : (findContainers html.data).isEmpty
  · simp only [hc, if_true, List.mem_singleton] at h
    subst h
    rfl
  · rw [if_neg hc] at h
    obtain ⟨c, _, hcc⟩ := List.mem_filterMap.mp h
    exact classifyContainer_cf url html pup c item hcc

lemma updateFlags_hasAnyBroken (f : StatusFlags) (i : GalleryItem) :
    (updateFlags f i).hasAnyBroken
      = (f.hasAnyBroken || decide (i.status = GalleryStatus.broken)) := by
  cases hst : i.status <;> simp [updateFlags, hst]

lemma updateFlags_hasAnyWorking (f : StatusFlags) (i : GalleryItem) :
    (updateFlags f i).hasAnyWorking
      = (f.hasAnyWorking || decide (i.status = GalleryStatus.working)) := by
  cases hst : i.status <;> simp [updateFlags, hst]

lemma updateFlags_hasNoGallery (f : StatusFlags) (i : GalleryItem) :
    (updateFlags f i).hasNoGallery
      = (f.hasNoGallery || decide (i.status = GalleryStatus.noCuratedGallery)) := by
  cases hst : i.status <;> simp [updateFlags, hst]

lemma foldFlags_broken (items : List GalleryItem) (f : StatusFlags) :
    (items.foldl updateFlags f).hasAnyBroken
      = (f.hasAnyBroken || items.any fun i => decide (i.status = GalleryStatus.broken)) := by
  induction items generalizing f with
  | nil => simp
  | cons i rest ih =>
    rw [List.foldl_cons, ih, updateFlags_hasAnyBroken, List.any_cons, Bool.or_assoc]

lemma foldFlags_working (items : List GalleryItem) (f : StatusFlags) :
    (items.foldl updateFlags f).hasAnyWorking
      = (f.hasAnyWorking || items.any fun i => decide (i.status = GalleryStatus.working)) := by
  induction items generalizing f with
  | nil => simp
  | cons i rest ih =>
    rw [List.foldl_cons, ih, updateFlags_hasAnyWorking, List.any_cons, Bool.or_assoc]

lemma foldFlags_noGallery (items : List GalleryItem) (f : StatusFlags) :
    (items.foldl updateFlags f).hasNoGallery
      = (f.hasNoGallery || items.any fun i => decide (i.status = GalleryStatus.noCuratedGallery)) := by
  induction items generalizing f with
  | nil => simp
  | cons i rest ih =>
    rw [List.foldl_cons, ih, updateFlags_hasNoGallery, List.any_cons, Bool.or_assoc]

/-! ## Claims -/

/-- C5: the batch coordinator resolves a URL's final status as broken when
any item is broken; else as no-curated-gallery when some item says so and
none is working; else as working when any item is working; and as working by
default when no branch fires (in particular for an empty item list). -/
theorem c5_per_url_status_resolution (items : List GalleryItem) :
    resolveUrlStatus items =
      (if items.any (fun i => decide (i.status = GalleryStatus.broken)) then
         GalleryStatus.broken
       else if items.any (fun i => decide (i.status = GalleryStatus.noCuratedGallery))
               && !(items.any fun i => decide (i.status = GalleryStatus.working)) then
         GalleryStatus.noCuratedGallery
       else if items.any (fun i => decide (i.status = GalleryStatus.working)) then
         GalleryStatus.working
       else GalleryStatus.working) := by
  simp only [resolveUrlStatus, foldFlags_broken, foldFlags_working, foldFlags_noGallery,
    Bool.false_or]

/-- C3: zero container matches yield exactly one no-curated-gallery item with
empty `image_url` and the fixed reason text. -/
theorem c3_zero_containers_single_item (url html : String) (pup : Bool)
    (h : findContainers html.data = []) :
    classifyGalleries url html pup =
      [ { page_url := url
          image_url := ""
          alt_text := ""
          reason := "No curated gallery components found on this page"
          status := GalleryStatus.noCuratedGallery
          scraped_html := ""
          puppeteer_used := pup
          debug_info := ""
          cloudflare_blocked := false } ] := by
  rw [classifyGalleries_eq, h]
  rfl

theorem c3_witness :
    findContainers ("<p>plain page</p>" : String).data = [] ∧
    classifyGalleries "https://example.com" "<p>plain page</p>" false =
      [ { page_url := "https://example.com"
          image_url := ""
          alt_text := ""
          reason := "No curated gallery components found on this page"
          status := GalleryStatus.noCuratedGallery
          scraped_html := ""
          puppeteer_used := false
          debug_info := ""
          cloudflare_blocked := false } ] :=
  ⟨by decide, c3_zero_containers_single_item "https://example.com" "<p>plain page</p>" false (by decide)⟩

/-- C4: with at least one container match the classifier emits at most one
item per container (video containers are dropped) and every emitted item is
working or broken, never no-curated-gallery. -/
theorem c4_item_count_and_statuses (url html : String) (pup : Bool)
    (h : findContainers html.data ≠ []) :
    (classifyGalleries url html pup).length ≤ (findContainers html.data).length ∧
    ∀ item ∈ classifyGalleries url html pup,
      item.status = GalleryStatus.working ∨ item.status = GalleryStatus.broken := by
  have hne : ¬((findContainers html.data).isEmpty = true) := by
    simpa [List.isEmpty_iff] using h
  rw [classifyGalleries_eq, if_neg hne]
  refine ⟨List.length_filterMap_le _ _, ?_⟩
  intro item hm
  obtain ⟨c, _, hcc⟩ := List.mem_filterMap.mp hm
  exact classifyContainer_status url html pup c item hcc

def exampleWorkingHtml : String :=
  "<div class=\"c1s88gxp a1wqrctr\"><span class=\"pub__shoppable-image--visible-dots\"></span></div>"

def exampleVideoHtml : String :=
  "<div class=\"c1s88gxp a1wqrctr\"><video src=\"v\"></video></div>"

theorem c4_witness :
    findContainers exampleWorkingHtml.data ≠ [] ∧
    ((classifyGalleries "https://example.com" exampleWorkingHtml true).length
        ≤ (findContainers exampleWorkingHtml.data).length ∧
     ∀ item ∈ classifyGalleries "https://example.com" exampleWorkingHtml true,
       item.status = GalleryStatus.working ∨ item.status = GalleryStatus.broken) :=
  ⟨by decide, c4_item_count_and_statuses "https://example.com" exampleWorkingHtml true (by decide)⟩

/-- C2: a matched container that is not skipped as video-embedding is
classified by the branch chain at route.ts lines 388–430: the
working-indicator test yields the working item whose `image_url` is the
first 500 characters of the container markup; lacking the
`pub__shoppable-image` token entirely yields the missing-component broken
item; otherwise the missing-dots broken item. -/
theorem c2_container_branches (url html : String) (pup : Bool)
    (full inner : List Char) (hv : hasVideoTagL inner = false) :
    classifyContainer url html pup (full, inner) =
      some (if hasWorkingGalleryL inner then
              { page_url := url
                image_url := takeChars 500 full
                alt_text := "Curated gallery with visible dots"
                reason := "Shoppable gallery is working properly"
                status := GalleryStatus.working
                scraped_html := html
                puppeteer_used := pup
                debug_info := ""
                cloudflare_blocked := false }
            else if !hasShoppableImageL inner then
              { page_url := url
                image_url := takeChars 500 full
                alt_text := "Broken curated gallery"
                reason := "Container has image but missing pub__shoppable-image component"
                status := GalleryStatus.broken
                scraped_html := html
                puppeteer_used := pup
                debug_info := ""
                cloudflare_blocked := false }
            else
              { page_url := url
                image_url := takeChars 500 full
                alt_text := "Gallery without visible dots"
                reason := "Shoppable gallery missing --visible-dots class"
                status := GalleryStatus.broken
                scraped_html := html
                puppeteer_used := pup
                debug_info := ""
                cloudflare_blocked := false }) := by
  unfold classifyContainer
  dsimp only
  rw [if_neg (by simp [hv])]
  split_ifs <;> rfl

def exampleWorkingInner : String :=
  "<span class=\"pub__shoppable-image--visible-dots\"></span>"

theorem c2_witness :
    hasVideoTagL exampleWorkingInner.data = false ∧
    classifyContainer "https://example.com" exampleWorkingHtml true
        (exampleWorkingHtml.data, exampleWorkingInner.data) =
      some (if hasWorkingGalleryL exampleWorkingInner.data then
              { page_url := "https://example.com"
                image_url := takeChars 500 exampleWorkingHtml.data
                alt_text := "Curated gallery with visible dots"
                reason := "Shoppable gallery is working properly"
                status := GalleryStatus.working
                scraped_html := exampleWorkingHtml
                puppeteer_used := true
                debug_info := ""
                cloudflare_blocked := false }
            else if !hasShoppableImageL exampleWorkingInner.data then
              { page_url := "https://example.com"
                image_url := takeChars 500 exampleWorkingHtml.data
                alt_text := "Broken curated gallery"
                reason := "Container has image but missing pub__shoppable-image component"
                status := GalleryStatus.broken
                scraped_html := exampleWorkingHtml
                puppeteer_used := true
                debug_info := ""
                cloudflare_blocked := false }
            else
              { page_url := "https://example.com"
                image_url := takeChars 500 exampleWorkingHtml.data
                alt_text := "Gallery without visible dots"
                reason := "Shoppable gallery missing --visible-dots class"
                status := GalleryStatus.broken
                scraped_html := exampleWorkingHtml
                puppeteer_used := true
                debug_info := ""
                cloudflare_blocked := false }) :=
  ⟨by decide,
   c2_container_branches "https://example.com" exampleWorkingHtml true
     exampleWorkingHtml.data exampleWorkingInner.data (by decide)⟩

lemma classifyGalleries_eq_nil_iff (url html : String) (pup : Bool) :
    classifyGalleries url html pup = [] ↔
      (findContainers html.data ≠ [] ∧
       ∀ c ∈ findContainers html.data, hasVideoTagL c.2 = true) := by
  rw [classifyGalleries_eq]
  by_cases hc : (findContainers html.data).isEmpty
  · rw [if_pos hc]
    have he : findContainers html.data = [] := List.isEmpty_iff.mp hc
    simp [he]
  · rw [if_neg hc]
    have hne : findContainers html.data ≠ [] := by simpa [List.isEmpty_iff] using hc
    rw [List.filterMap_eq_nil_iff]
    constructor
    · intro hall
      exact ⟨hne, fun c hcm => (classifyContainer_eq_none_iff url html pup c).mp (hall c hcm)⟩
    · intro hall c hcm
      exact (classifyContainer_eq_none_iff url html pup c).mpr (hall.2 c hcm)

/-- C1 (amended): the Executor is a total function of the fetch outcome — an
exception reaching the outer boundary is converted into the single synthetic
broken item with reason `Scan failed: <message>` and debug info
`Fatal error: <message>` — and its result is non-empty in every case except
one: when the fetched HTML has at least one container match and every
matched container embeds a video element, all containers are skipped and the
returned list is empty. -/
theorem c1_executor_boundary (url : String) (o : FetchOutcome) :
    (∀ msg, o = FetchOutcome.fatal msg →
       detectBrokenGalleriesWithSteps url o =
         [ { page_url := url
             image_url := "N/A"
             alt_text := ""
             reason := "Scan failed: " ++ msg
             status := GalleryStatus.broken
             scraped_html := ""
             puppeteer_used := false
             debug_info := "Fatal error: " ++ msg
             cloudflare_blocked := false } ]) ∧
    (detectBrokenGalleriesWithSteps url o = [] ↔
       ∃ html pup, classifiedHtml o = some (html, pup) ∧
         findContainers html.data ≠ [] ∧
         ∀ c ∈ findContainers html.data, hasVideoTagL c.2 = true) := by
  cases o with
  | rendered html cf =>
    refine ⟨fun msg h => by simp at h, ?_⟩
    show classifyGalleries url html true = [] ↔ _
    rw [classifyGalleries_eq_nil_iff]
    simp [classifiedHtml]
  | fetched html =>
    refine ⟨fun msg h => by simp at h, ?_⟩
    show classifyGalleries url html false = [] ↔ _
    rw [classifyGalleries_eq_nil_iff]
    simp [classifiedHtml]
  | blocked =>
    refine ⟨fun msg h => by simp at h, ?_⟩
    simp [detectBrokenGalleriesWithSteps, classifiedHtml]
  | httpStatusError s =>
    refine ⟨fun msg h => by simp at h, ?_⟩
    simp [detectBrokenGalleriesWithSteps, classifiedHtml]
  | fatal msg =>
    constructor
    · intro msg2 h
      cases h
      rfl
    · simp [detectBrokenGalleriesWithSteps, classifiedHtml]

/-- C1 counterexample: the claim asserts the Executor always returns a
non-empty item list, but on a rendered page whose only container embeds a
video element the classifier skips the container and the Executor returns
the empty list. -/
theorem c1_counterexample :
    detectBrokenGalleriesWithSteps "https://example.com"
      (FetchOutcome.rendered exampleVideoHtml false) = [] := by decide

/-- C9: every item produced on the render path carries
`cloudflare_blocked = false`, whatever value the internal navigation-failure
flag took — the flag is never propagated into an emitted item. -/
theorem c9_render_flag_not_propagated (url html : String) (cf : Bool)
    (item : GalleryItem)
    (h : item ∈ detectBrokenGalleriesWithSteps url (FetchOutcome.rendered html cf)) :
    item.cloudflare_blocked = false :=
  mem_classifyGalleries_cf url html true item h

theorem c9_witness :
    (noCuratedGalleryItem "https://example.com" true).cloudflare_blocked = false :=
  c9_render_flag_not_propagated "https://example.com" "<p>x</p>" true
    (noCuratedGalleryItem "https://example.com" true) (by decide)

/-- C10: when the fallback HTTP path detects Cloudflare blocking, the
Executor returns exactly one item — status broken (there is no separate
blocked status), `cloudflare_blocked = true`, reason
`Cloudflare is blocking requests`, empty `scraped_html` — and the per-URL
resolution rule maps that list to status broken. -/
theorem c10_blocked_single_broken_item (url : String) :
    detectBrokenGalleriesWithSteps url FetchOutcome.blocked =
      [ { page_url := url
          image_url := "N/A"
          alt_text := ""
          reason := "Cloudflare is blocking requests"
          status := GalleryStatus.broken
          scraped_html := ""
          puppeteer_used := false
          debug_info := "Cloudflare blocking detected"
          cloudflare_blocked := true } ] ∧
    resolveUrlStatus (detectBrokenGalleriesWithSteps url FetchOutcome.blocked) =
      GalleryStatus.broken :=
  ⟨rfl, rfl⟩

lemma if_chain_or (a b c : Bool) :
    (if a then true else if b then true else if c then true else false) = (a || b || c) := by
  cases a <;> cases b <;> cases c <;> rfl

lemma serverHasCloudflare_iff (h : RespHeaders) :
    serverHasCloudflare h = true ↔
      ∃ v, h.server = some v ∧ containsStr v "cloudflare" = true := by
  cases hs : h.server <;> simp [serverHasCloudflare, hs]

lemma cfRayTruthy_iff (h : RespHeaders) :
    cfRayTruthy h = true ↔ ∃ v, h.cfRay = some v ∧ v ≠ "" := by
  cases hr : h.cfRay <;> simp [cfRayTruthy, hr]

/-- C7 (amended): the detector returns true exactly when the status code is
403, 429 or 503; or the server header contains `cloudflare` as a
case-sensitive substring, or a `cf-ray` header is present with a non-empty
value; or the body contains one of the four literal markers.  Each check
alone is sufficient.  (The claim's case-insensitive server comparison and
bare header presence do not match the source, which uses a case-sensitive
`includes` and a JavaScript truthiness test.) -/
theorem c7_detector_iff (status : Nat) (h : RespHeaders) (body : String) :
    detectCloudflareBlocking status h body = true ↔
      ((status = 403 ∨ status = 429 ∨ status = 503)
       ∨ ((∃ v, h.server = some v ∧ containsStr v "cloudflare" = true)
          ∨ (∃ v, h.cfRay = some v ∧ v ≠ ""))
       ∨ (containsStr body "You are being rate limited" = true
          ∨ containsStr body "Checking your browser" = true
          ∨ containsStr body "cloudflare-challenge" = true
          ∨ containsStr body "Ray ID:" = true)) := by
  unfold detectCloudflareBlocking
  rw [if_chain_or]
  simp only [Bool.or_eq_true, beq_iff_eq, serverHasCloudflare_iff, cfRayTruthy_iff, or_assoc]

/-- C7 counterexample: the claim's iff demands a case-insensitive match on
the server header, but the source's `includes("cloudflare")` is
case-sensitive: a server header `Cloudflare` satisfies the claim's predicate
while the detector returns false. -/
theorem c7_counterexample :
    detectCloudflareBlocking 200 ⟨some "Cloudflare", none⟩ "" = false ∧
    detectCloudflareBlockingClaim 200 ⟨some "Cloudflare", none⟩ "" = true := by
  constructor <;> decide

/-- C6 (amended): the first item for a URL seeds the map; a subsequent item
for the same URL changes the representative only when the new item's status
is broken, in which case the status is set to broken and the
`cloudflare_blocked` flags are OR-merged; a non-broken subsequent item
leaves the representative entirely unchanged (there is no upgrade to
no-curated-gallery, and the Cloudflare flag is not merged for non-broken
items). -/
theorem c6_collapse_merge_rule (m : List (String × GalleryItem)) (item : GalleryItem) :
    (lookupAssoc item.page_url m = none →
       collapseStep m item = m ++ [(item.page_url, item)]) ∧
    (∀ e, lookupAssoc item.page_url m = some e →
       collapseStep m item =
         if item.status = GalleryStatus.broken then
           updateAssoc item.page_url
             { e with
               status := GalleryStatus.broken
               cloudflare_blocked := item.cloudflare_blocked || e.cloudflare_blocked } m
         else m) := by
  constructor
  · intro h
    unfold collapseStep
    rw [h]
  · intro e he
    unfold collapseStep
    rw [he]

def cWorkingItem : GalleryItem :=
  { page_url := "https://u"
    image_url := ""
    alt_text := ""
    reason := ""
    status := GalleryStatus.working
    scraped_html := ""
    puppeteer_used := true
    debug_info := ""
    cloudflare_blocked := false }

def cNoGalleryItem : GalleryItem :=
  { cWorkingItem with
    status := GalleryStatus.noCuratedGallery
    cloudflare_blocked := true }

/-- C6 counterexample: collapsing a working item followed by a
no-curated-gallery item (with the Cloudflare flag set) for the same URL, the
source keeps the representative working with the flag unmerged, while the
claim's merge rule would upgrade it to no-curated-gallery and OR in the
flag. -/
theorem c6_counterexample :
    collapseItems [cWorkingItem, cNoGalleryItem] = [("https://u", cWorkingItem)] ∧
    collapseItemsClaim [cWorkingItem, cNoGalleryItem] =
      [("https://u",
        { cWorkingItem with
          status := GalleryStatus.noCuratedGallery
          cloudflare_blocked := true })] := by
  constructor <;> decide

/-- C8: broken dominance in the collapse is order-independent — a working
and a broken item for the same URL collapse to a broken representative in
either order. -/
theorem c8_broken_dominates_either_order (i1 i2 : GalleryItem)
    (hurl : i2.page_url = i1.page_url)
    (h1 : i1.status = GalleryStatus.working)
    (h2 : i2.status = GalleryStatus.broken) :
    (collapseItems [i1, i2]).map (fun p => p.2.status) = [GalleryStatus.broken] ∧
    (collapseItems [i2, i1]).map (fun p => p.2.status) = [GalleryStatus.broken] := by
  rcases i1 with ⟨p1, u1, a1, r1, s1, sh1, pu1, d1, cb1⟩
  rcases i2 with ⟨p2, u2, a2, r2, s2, sh2, pu2, d2, cb2⟩
  simp only at hurl h1 h2
  subst hurl h1 h2
  simp [collapseItems, collapseStep, lookupAssoc, updateAssoc]

def cBrokenItem : GalleryItem :=
  { cWorkingItem with status := GalleryStatus.broken, page_url := "https://v" }

def cWorkingItemV : GalleryItem :=
  { cWorkingItem with page_url := "https://v" }

theorem c8_witness :
    (collapseItems [cWorkingItemV, cBrokenItem]).map (fun p => p.2.status) =
      [GalleryStatus.broken] ∧
    (collapseItems [cBrokenItem, cWorkingItemV]).map (fun p => p.2.status) =
      [GalleryStatus.broken] :=
  c8_broken_dominates_either_order cWorkingItemV cBrokenItem rfl rfl rfl
